import Mathlib

/-!
Shallow embedding of `mistralrs-agent-tools/winutils/scripts/validate_paths.py`,
the WinPath validation harness.  The external world (the cargo toolchain, the
filesystem and the clock) is abstracted by an `Env` record: each subprocess
invocation consumes the next index of `Env.run`, each `time.time()` call
consumes the next index of `Env.time`, and directory-existence checks read
fixed booleans.  The harness state (`PathValidator.test_results` plus the
implicit subprocess / clock positions and the log of started checks) is the
`VState` record, threaded explicitly through every operation.
-/

namespace ValidatePaths

/-- Outcome of one `subprocess.run(["cargo"] + args, ...)` call: normal
completion with a return code and captured stdout/stderr, a
`subprocess.TimeoutExpired`, or any other raised exception (carrying the text
`str(e)`). -/
inductive CmdResult where
  | completed (returncode : Int) (stdout : String) (stderr : String)
  | timedOut
  | raised (msg : String)
deriving Repr, DecidableEq

/-- Working directory of a cargo invocation: `run_cargo_command` defaults to
`self.winpath_dir`; `test_executable_paths` passes `self.project_root`. -/
inductive Cwd where
  | winpath
  | projectRoot
deriving Repr, DecidableEq

/-- One value of the `performance` mapping (validate_paths.py lines 221-224). -/
structure PerfEntry where
  duration : Int
  iterations : Nat
deriving Repr, DecidableEq

/-- One entry of `test_results["errors"]` (lines 69-71). -/
structure ErrorEntry where
  test : String
  error : String
  time : Int
deriving Repr, DecidableEq

/-- The `self.test_results` dictionary (lines 25-32).  Clock instants are
modelled as integers. -/
structure TestResults where
  total_tests : Nat
  passed_tests : Nat
  failed_tests : Nat
  errors : List ErrorEntry
  performance : List (String × PerfEntry)
  start_time : Int
deriving Repr, DecidableEq

/-- The external world: `run i args cwd` is the outcome of the i-th cargo
invocation of the process, `time i` the value returned by the i-th
`time.time()` call, the booleans the existence of the three directories the
script probes, `example_stems` the stems of the `*.rs` files found by
`examples_dir.glob`, and `timestamp` the `time.strftime` value used for the
default report name. -/
structure Env where
  run : Nat → List String → Cwd → CmdResult
  winpath_dir_exists : Bool
  examples_dir_exists : Bool
  example_stems : List String
  winutils_tests_dir_exists : Bool
  time : Nat → Int
  timestamp : String

/-- Mutable state of a `PathValidator` run: the results record, the number of
cargo invocations made so far (`callIdx`), the number of `time.time()` calls
made so far (`tick`), and the ordered log of check names passed to
`start_test` (mirroring its `log_info` line). -/
structure VState where
  results : TestResults
  callIdx : Nat
  tick : Nat
  started : List String
deriving Repr, DecidableEq

/-- Embedding of `PathValidator.start_test` (lines 59-61): logs the check name
and increments `total_tests`. -/
def start_test (name : String) (s : VState) : VState :=
  { s with
    results := { s.results with total_tests := s.results.total_tests + 1 }
    started := s.started ++ [name] }

/-- Embedding of `PathValidator.complete_test` (lines 63-72): on success
increments `passed_tests`; on failure increments `failed_tests` and appends
`{"test": .., "error": .., "time": time.time()}` to the error list. -/
def complete_test (env : Env) (name : String) (success : Bool)
    (error_message : String) (s : VState) : VState :=
  if success then
    { s with results :=
        { s.results with passed_tests := s.results.passed_tests + 1 } }
  else
    { s with
      results := { s.results with
        failed_tests := s.results.failed_tests + 1
        errors := s.results.errors ++
          [{ test := name, error := error_message, time := env.time s.tick }] }
      tick := s.tick + 1 }

/-- Embedding of `PathValidator.run_cargo_command` (lines 74-99): runs one
cargo invocation and returns `(success, output)`.  A completed process yields
`returncode == 0` paired with `stdout + stderr`; `TimeoutExpired` yields
failure with the fixed message; any other exception yields failure with the
exception text.  The function never propagates an exception. -/
def run_cargo_command (env : Env) (args : List String) (cwd : Cwd)
    (s : VState) : (Bool × String) × VState :=
  let s2 : VState := { s with callIdx := s.callIdx + 1 }
  match env.run s.callIdx args cwd with
  | .completed rc stdout stderr => ((rc == 0, stdout ++ stderr), s2)
  | .timedOut => ((false, "Command timed out"), s2)
  | .raised e => ((false, e), s2)

/-- Success of a raw command outcome, as `run_cargo_command` classifies it. -/
def cmdOk : CmdResult → Bool
  | .completed rc _ _ => rc == 0
  | .timedOut => false
  | .raised _ => false

/-- Embedding of `PathValidator.test_basic_compilation` (lines 101-133): one
check named "Basic Compilation" running up to three builds (debug, release,
all-features); the first failing build completes the check as failed and the
later builds are not attempted. -/
def test_basic_compilation (env : Env) (s : VState) : Bool × VState :=
  let s := start_test "Basic Compilation" s
  let r1 := run_cargo_command env ["build"] Cwd.winpath s
  if !r1.1.1 then
    (false, complete_test env "Basic Compilation" false
      ("Debug build failed: " ++ r1.1.2) r1.2)
  else
    let r2 := run_cargo_command env ["build", "--release"] Cwd.winpath r1.2
    if !r2.1.1 then
      (false, complete_test env "Basic Compilation" false
        ("Release build failed: " ++ r2.1.2) r2.2)
    else
      let r3 := run_cargo_command env ["build", "--all-features"] Cwd.winpath r2.2
      if !r3.1.1 then
        (false, complete_test env "Basic Compilation" false
          ("All-features build failed: " ++ r3.1.2) r3.2)
      else
        (true, complete_test env "Basic Compilation" true "" r3.2)

/-- Embedding of `PathValidator.test_unit_tests` (lines 135-145). -/
def test_unit_tests (env : Env) (s : VState) : Bool × VState :=
  let s := start_test "Unit Tests" s
  let r := run_cargo_command env ["test", "--lib"] Cwd.winpath s
  if !r.1.1 then
    (false, complete_test env "Unit Tests" false
      ("Unit tests failed: " ++ r.1.2) r.2)
  else
    (true, complete_test env "Unit Tests" true "" r.2)

/-- The `test_files` list of `test_integration_tests` (lines 155-160). -/
def integration_test_files : List String :=
  ["basic_tests", "wsl_path_tests", "git_bash_tests", "integration_tests"]

/-- Embedding of the `for` loops that run one cargo invocation per listed name
and AND each outcome into an accumulator (lines 162-168 and 193-199). -/
def run_each (env : Env) (mkArgs : String → List String) (names : List String)
    (all_passed : Bool) (s : VState) : Bool × VState :=
  match names with
  | [] => (all_passed, s)
  | n :: rest =>
      let r := run_cargo_command env (mkArgs n) Cwd.winpath s
      run_each env mkArgs rest (all_passed && r.1.1) r.2

/-- Embedding of `PathValidator.test_integration_tests` (lines 147-171): runs
the umbrella invocation `cargo test --test *` (whose outcome is overwritten
and never used), then the four named sub-suites; completes the check with the
conjunction of the sub-suite outcomes and the default empty error message. -/
def test_integration_tests (env : Env) (s : VState) : Bool × VState :=
  let s := start_test "Integration Tests" s
  let r0 := run_cargo_command env ["test", "--test", "*"] Cwd.winpath s
  let r := run_each env (fun tf => ["test", "--test", tf])
    integration_test_files true r0.2
  (r.1, complete_test env "Integration Tests" r.1 "" r.2)

/-- The `test_patterns` list of `test_git_bash_specific` (lines 186-191). -/
def git_bash_test_patterns : List String :=
  ["git_bash_mangled_paths", "git_bash_complex_paths", "git_bash_edge_cases",
   "wsl_vs_git_bash_differentiation"]

/-- Embedding of `PathValidator.test_git_bash_specific` (lines 173-202): the
main `git_bash_tests` suite (fatal to the check on failure) followed by four
pattern probes whose failures lower `all_passed`. -/
def test_git_bash_specific (env : Env) (s : VState) : Bool × VState :=
  let s := start_test "Git Bash Path Handling" s
  let r := run_cargo_command env ["test", "--test", "git_bash_tests"] Cwd.winpath s
  if !r.1.1 then
    (false, complete_test env "Git Bash Path Handling" false
      ("Git Bash tests failed: " ++ r.1.2) r.2)
  else
    let r2 := run_each env (fun pat => ["test", pat])
      git_bash_test_patterns true r.2
    (r2.1, complete_test env "Git Bash Path Handling" r2.1 "" r2.2)

/-- Assignment `self.test_results["performance"][key] = v` on the association
list modelling the dictionary. -/
def setPerf (perf : List (String × PerfEntry)) (key : String) (v : PerfEntry) :
    List (String × PerfEntry) :=
  if perf.any (fun p => p.1 == key) then
    perf.map (fun p => if p.1 == key then (key, v) else p)
  else
    perf ++ [(key, v)]

/-- Embedding of `PathValidator.test_performance` (lines 204-227): records the
wall-clock duration of a bench compile and a release-mode test run under the
"test_suite" key and always completes the check as passed. -/
def test_performance (env : Env) (iterations : Nat) (s : VState) :
    Bool × VState :=
  let s := start_test "Performance Tests" s
  let t0 := env.time s.tick
  let s := { s with tick := s.tick + 1 }
  let r1 := run_cargo_command env ["bench", "--no-run"] Cwd.winpath s
  let r2 := run_cargo_command env ["test", "--release", "performance"] Cwd.winpath r1.2
  let s := r2.2
  let t1 := env.time s.tick
  let s := { s with tick := s.tick + 1 }
  let s := { s with results := { s.results with
    performance := setPerf s.results.performance "test_suite"
      { duration := t1 - t0, iterations := iterations } } }
  (true, complete_test env "Performance Tests" true "" s)

/-- Embedding of the `for example_file in examples_dir.glob("*.rs")` loop
(lines 249-260): each example is run with the fixed sample argument and its
outcome is only logged. -/
def run_examples_loop (env : Env) (names : List String) (s : VState) : VState :=
  match names with
  | [] => s
  | n :: rest =>
      run_examples_loop env rest
        (run_cargo_command env ["run", "--example", n, "--", "C:\\test\\path"]
          Cwd.winpath s).2

/-- Embedding of `PathValidator.test_examples` (lines 229-263): if the
examples directory is absent the check passes immediately; otherwise a failing
`cargo build --examples` fails the check, and individual example runs are
attempted but never affect the result. -/
def test_examples (env : Env) (s : VState) : Bool × VState :=
  let s := start_test "Example Programs" s
  if !env.examples_dir_exists then
    (true, complete_test env "Example Programs" true "" s)
  else
    let r := run_cargo_command env ["build", "--examples"] Cwd.winpath s
    if !r.1.1 then
      (false, complete_test env "Example Programs" false
        ("Examples build failed: " ++ r.1.2) r.2)
    else
      let s := run_examples_loop env env.example_stems r.2
      (true, complete_test env "Example Programs" true "" s)

/-- Embedding of `PathValidator.test_documentation` (lines 265-285): a failing
doc build fails the check; doc-test failures are only warned about. -/
def test_documentation (env : Env) (s : VState) : Bool × VState :=
  let s := start_test "Documentation Tests" s
  let r := run_cargo_command env ["doc", "--no-deps"] Cwd.winpath s
  if !r.1.1 then
    (false, complete_test env "Documentation Tests" false
      ("Doc build failed: " ++ r.1.2) r.2)
  else
    let r2 := run_cargo_command env ["test", "--doc"] Cwd.winpath r.2
    (true, complete_test env "Documentation Tests" true "" r2.2)

/-- Embedding of `PathValidator.test_executable_paths` (lines 287-302): runs
the winutils-level test (from the project root) only when the `tests`
directory exists and only warns on its failure; the check always passes. -/
def test_executable_paths (env : Env) (s : VState) : Bool × VState :=
  let s := start_test "Executable Path Reporting" s
  let s :=
    if env.winutils_tests_dir_exists then
      (run_cargo_command env ["test", "--test", "executable_path_tests"]
        Cwd.projectRoot s).2
    else s
  (true, complete_test env "Executable Path Reporting" true "" s)

/-- Embedding of `PathValidator.validate_path_patterns` (lines 304-318): a
placeholder check that always passes. -/
def validate_path_patterns (env : Env) (s : VState) : Bool × VState :=
  let s := start_test "Path Pattern Validation" s
  (true, complete_test env "Path Pattern Validation" true "" s)

/-- Embedding of `PathValidator.run_validation_suite` (lines 363-401): returns
`False` at once if the winpath directory is missing; otherwise runs the six
core checks, the two flag-gated checks, and the executable-path check,
AND-ing every outcome into the returned success flag. -/
def run_validation_suite (env : Env) (performance git_bash full_suite : Bool)
    (iterations : Nat) (s : VState) : Bool × VState :=
  if !env.winpath_dir_exists then
    (false, s)
  else
    let r1 := test_basic_compilation env s
    let r2 := test_unit_tests env r1.2
    let r3 := test_integration_tests env r2.2
    let r4 := test_examples env r3.2
    let r5 := test_documentation env r4.2
    let r6 := validate_path_patterns env r5.2
    let r7 := if git_bash || full_suite
      then test_git_bash_specific env r6.2 else (true, r6.2)
    let r8 := if performance || full_suite
      then test_performance env iterations r7.2 else (true, r7.2)
    let r9 := test_executable_paths env r8.2
    (r1.1 && r2.1 && r3.1 && r4.1 && r5.1 && r6.1 && r7.1 && r8.1 && r9.1,
     r9.2)

/-- A filesystem path given to `open(.., "w")`, split into the directory that
must exist for the write to succeed and the file name inside it. -/
structure OutPath where
  parent : String
  fname : String
deriving Repr, DecidableEq

/-- The `summary` object of the written report (lines 345-352). -/
structure ReportSummary where
  total_tests : Nat
  passed_tests : Nat
  failed_tests : Nat
  duration : Int
  start_time : Int
  end_time : Int
deriving Repr, DecidableEq

/-- The `report_data` object written by `json.dump` (lines 344-355). -/
structure Report where
  summary : ReportSummary
  errors : List ErrorEntry
  performance : List (String × PerfEntry)
deriving Repr, DecidableEq

/-- Filesystem model: the list of directories that currently exist. -/
abbrev FS := List String

/-- Embedding of `Path.mkdir(exist_ok=True)` (line 41): creates exactly the
named directory, succeeding silently when it already exists. -/
def mkdir_exist_ok (fs : FS) (d : String) : FS :=
  if d ∈ fs then fs else fs ++ [d]

/-- Embedding of `PathValidator.generate_report` (lines 320-361): reads
`time.time()` for the end time, prints the summary (not modelled), and — when
an output file is requested — builds `report_data` and opens the file for
writing.  `open` only succeeds when the parent directory exists;
`generate_report` itself creates no directories, so a missing parent raises
`FileNotFoundError`, modelled as the `Except.error` branch.  On the normal
path it returns `failed_tests == 0` together with the written report. -/
def generate_report (env : Env) (fs : FS) (output_file : Option OutPath)
    (s : VState) : VState × Except String (Bool × Option Report) :=
  let end_time := env.time s.tick
  let s := { s with tick := s.tick + 1 }
  match output_file with
  | none => (s, .ok (s.results.failed_tests == 0, none))
  | some p =>
      if p.parent ∈ fs then
        (s, .ok (s.results.failed_tests == 0, some
          { summary :=
              { total_tests := s.results.total_tests
                passed_tests := s.results.passed_tests
                failed_tests := s.results.failed_tests
                duration := end_time - s.results.start_time
                start_time := s.results.start_time
                end_time := end_time }
            errors := s.results.errors
            performance := s.results.performance }))
      else
        (s, .error "FileNotFoundError")

/-- Parsed command-line arguments of the script (lines 405-425), after
argparse has applied the defaults. -/
structure Args where
  verbose : Bool
  performance : Bool
  git_bash : Bool
  full : Bool
  iterations : Nat
  output : Option OutPath
deriving Repr, DecidableEq

/-- The `self.test_results_dir` path, `project_root / "test-results"`
(line 38), as an abstract directory token. -/
def test_results_dir : String := "test-results"

/-- Embedding of `PathValidator.__init__` (lines 23-41): zeroed counters,
`start_time` taken from the first `time.time()` call, and fresh subprocess /
clock positions. -/
def init_state (env : Env) : VState :=
  { results :=
      { total_tests := 0
        passed_tests := 0
        failed_tests := 0
        errors := []
        performance := []
        start_time := env.time 0 }
    callIdx := 0
    tick := 1
    started := [] }

/-- The `mkdir(exist_ok=True)` on the results directory done by `__init__`
(line 41). -/
def init_fs (fs : FS) : FS := mkdir_exist_ok fs test_results_dir

/-- Embedding of `main` (lines 404-459): constructs the validator, runs the
suite, picks the output file (the user-supplied one, or the timestamped
default under the results directory), generates the report, and returns the
exit code together with the final state and the report that was written (if
the write succeeded).  An exception escaping `generate_report` is caught by
the top-level handler and turned into exit code 1. -/
def main (env : Env) (fs0 : FS) (args : Args) : Nat × VState × Option Report :=
  let s := init_state env
  let fs := init_fs fs0
  let r := run_validation_suite env args.performance args.git_bash
    args.full args.iterations s
  let output_file : OutPath :=
    match args.output with
    | some p => p
    | none =>
        { parent := test_results_dir
          fname := "winpath-validation-" ++ env.timestamp ++ ".json" }
  match generate_report env fs (some output_file) r.2 with
  | (s2, .ok pr) => (if r.1 && pr.1 then 0 else 1, s2, pr.2)
  | (s2, .error _) => (1, s2, none)

/-- A concrete environment in which every cargo invocation succeeds and every
probed directory exists. -/
def envAllOk : Env :=
  { run := fun _ _ _ => .completed 0 "" ""
    winpath_dir_exists := true
    examples_dir_exists := true
    example_stems := ["demo"]
    winutils_tests_dir_exists := true
    time := fun i => (i : Int)
    timestamp := "20250101-000000" }

/-- A concrete environment whose second cargo invocation (index 1) fails and
all others succeed; used against `test_integration_tests`, where index 0 is
the umbrella invocation and index 1 the first sub-suite. -/
def envUmbrellaOk : Env :=
  { envAllOk with
    run := fun i _ _ =>
      if i = 1 then .completed 101 "sub-suite failed" "" else .completed 0 "" "" }

/-- A concrete environment whose winpath directory is missing. -/
def envNoWinpath : Env :=
  { envAllOk with winpath_dir_exists := false }

/-- A concrete environment in which the optional directories (examples,
winutils tests) are both missing. -/
def envNoOptionalDirs : Env :=
  { envAllOk with
    examples_dir_exists := false
    winutils_tests_dir_exists := false }

/-- A concrete environment whose first cargo invocation times out. -/
def envTimeout : Env :=
  { envAllOk with run := fun _ _ _ => .timedOut }

/-- A concrete destination path whose parent directory is not in the
(empty) filesystem. -/
def badOut : OutPath := { parent := "missing-dir", fname := "report.json" }

/-- The argparse defaults: no flags, 1000 iterations, no output path. -/
def argsDefault : Args :=
  { verbose := false, performance := false, git_bash := false, full := false,
    iterations := 1000, output := none }

/-- The counter invariant of the spec: `total_tests` equals
`passed_tests + failed_tests`. -/
def counters_ok (s : VState) : Prop :=
  s.results.total_tests = s.results.passed_tests + s.results.failed_tests

/-- The error-list invariant of the spec: the length of `errors` equals
`failed_tests`. -/
def errors_ok (s : VState) : Prop :=
  s.results.errors.length = s.results.failed_tests

/-- Effect of one completed check on the results record: exactly one new
counted check, which either passed (leaving `failed_tests` and `errors`
untouched) or failed (leaving `passed_tests` untouched and appending exactly
one error entry). -/
def StepEffect (s t : VState) : Prop :=
  t.results.total_tests = s.results.total_tests + 1 ∧
  ((t.results.passed_tests = s.results.passed_tests + 1 ∧
    t.results.failed_tests = s.results.failed_tests ∧
    t.results.errors = s.results.errors) ∨
   (t.results.passed_tests = s.results.passed_tests ∧
    t.results.failed_tests = s.results.failed_tests + 1 ∧
    ∃ e, t.results.errors = s.results.errors ++ [e]))

/- ------------------------------------------------------------------ -/
/- Helper lemmas                                                       -/
/- ------------------------------------------------------------------ -/

@[simp]
theorem run_cargo_snd (env : Env) (args : List String) (cwd : Cwd)
    (s : VState) :
    (run_cargo_command env args cwd s).2 = { s with callIdx := s.callIdx + 1 } := by
  unfold run_cargo_command
  cases env.run s.callIdx args cwd <;> rfl

@[simp]
theorem run_cargo_ok (env : Env) (args : List String) (cwd : Cwd)
    (s : VState) :
    (run_cargo_command env args cwd s).1.1 = cmdOk (env.run s.callIdx args cwd) := by
  unfold run_cargo_command cmdOk
  cases env.run s.callIdx args cwd <;> rfl

@[simp]
theorem run_each_results (env : Env) (f : String → List String)
    (l : List String) (b : Bool) (s : VState) :
    ((run_each env f l b s).2).results = s.results := by
  induction l generalizing b s with
  | nil => rfl
  | cons n rest ih => simp [run_each, ih]

@[simp]
theorem run_each_started (env : Env) (f : String → List String)
    (l : List String) (b : Bool) (s : VState) :
    ((run_each env f l b s).2).started = s.started := by
  induction l generalizing b s with
  | nil => rfl
  | cons n rest ih => simp [run_each, ih]

@[simp]
theorem run_each_tick (env : Env) (f : String → List String)
    (l : List String) (b : Bool) (s : VState) :
    ((run_each env f l b s).2).tick = s.tick := by
  induction l generalizing b s with
  | nil => rfl
  | cons n rest ih => simp [run_each, ih]

@[simp]
theorem run_examples_loop_results (env : Env) (l : List String) (s : VState) :
    (run_examples_loop env l s).results = s.results := by
  induction l generalizing s with
  | nil => rfl
  | cons n rest ih => simp [run_examples_loop, ih]

@[simp]
theorem run_examples_loop_started (env : Env) (l : List String) (s : VState) :
    (run_examples_loop env l s).started = s.started := by
  induction l generalizing s with
  | nil => rfl
  | cons n rest ih => simp [run_examples_loop, ih]

@[simp]
theorem run_examples_loop_tick (env : Env) (l : List String) (s : VState) :
    (run_examples_loop env l s).tick = s.tick := by
  induction l generalizing s with
  | nil => rfl
  | cons n rest ih => simp [run_examples_loop, ih]

theorem stepEffect_complete (env : Env) (name msg : String) (ok : Bool)
    (s t : VState)
    (h1 : t.results.total_tests = s.results.total_tests + 1)
    (h2 : t.results.passed_tests = s.results.passed_tests)
    (h3 : t.results.failed_tests = s.results.failed_tests)
    (h4 : t.results.errors = s.results.errors) :
    StepEffect s (complete_test env name ok msg t) := by
  cases ok with
  | true =>
      exact ⟨by simp [complete_test, h1],
        Or.inl ⟨by simp [complete_test, h2], by simp [complete_test, h3],
          by simp [complete_test, h4]⟩⟩
  | false =>
      exact ⟨by simp [complete_test, h1],
        Or.inr ⟨by simp [complete_test, h2], by simp [complete_test, h3],
          ⟨{ test := name, error := msg, time := env.time t.tick },
            by simp [complete_test, h4]⟩⟩⟩

@[simp]
theorem complete_test_started (env : Env) (name : String) (ok : Bool)
    (msg : String) (s : VState) :
    (complete_test env name ok msg s).started = s.started := by
  cases ok <;> rfl

@[simp]
theorem complete_test_total (env : Env) (name : String) (ok : Bool)
    (msg : String) (s : VState) :
    (complete_test env name ok msg s).results.total_tests
      = s.results.total_tests := by
  cases ok <;> rfl

theorem stepEffect_basic (env : Env) (s : VState) :
    StepEffect s (test_basic_compilation env s).2 := by
  simp only [test_basic_compilation]
  split
  · exact stepEffect_complete env _ _ false s _ (by simp [start_test])
      (by simp [start_test]) (by simp [start_test]) (by simp [start_test])
  split
  · exact stepEffect_complete env _ _ false s _ (by simp [start_test])
      (by simp [start_test]) (by simp [start_test]) (by simp [start_test])
  split
  · exact stepEffect_complete env _ _ false s _ (by simp [start_test])
      (by simp [start_test]) (by simp [start_test]) (by simp [start_test])
  · exact stepEffect_complete env "Basic Compilation" "" true s _
      (by simp [start_test]) (by simp [start_test]) (by simp [start_test])
      (by simp [start_test])

theorem stepEffect_unit (env : Env) (s : VState) :
    StepEffect s (test_unit_tests env s).2 := by
  simp only [test_unit_tests]
  split
  · exact stepEffect_complete env _ _ false s _ (by simp [start_test])
      (by simp [start_test]) (by simp [start_test]) (by simp [start_test])
  · exact stepEffect_complete env "Unit Tests" "" true s _
      (by simp [start_test]) (by simp [start_test]) (by simp [start_test])
      (by simp [start_test])

theorem stepEffect_integration (env : Env) (s : VState) :
    StepEffect s (test_integration_tests env s).2 := by
  simp only [test_integration_tests]
  exact stepEffect_complete env "Integration Tests" "" _ s _
    (by simp [start_test]) (by simp [start_test]) (by simp [start_test])
    (by simp [start_test])

theorem stepEffect_gitbash (env : Env) (s : VState) :
    StepEffect s (test_git_bash_specific env s).2 := by
  simp only [test_git_bash_specific]
  split
  · exact stepEffect_complete env _ _ false s _ (by simp [start_test])
      (by simp [start_test]) (by simp [start_test]) (by simp [start_test])
  · exact stepEffect_complete env "Git Bash Path Handling" "" _ s _
      (by simp [start_test]) (by simp [start_test]) (by simp [start_test])
      (by simp [start_test])

theorem stepEffect_performance (env : Env) (it : Nat) (s : VState) :
    StepEffect s (test_performance env it s).2 := by
  simp only [test_performance]
  exact stepEffect_complete env "Performance Tests" "" true s _
    (by simp [start_test]) (by simp [start_test]) (by simp [start_test])
    (by simp [start_test])

theorem stepEffect_examples (env : Env) (s : VState) :
    StepEffect s (test_examples env s).2 := by
  simp only [test_examples]
  split
  · exact stepEffect_complete env "Example Programs" "" true s _
      (by simp [start_test]) (by simp [start_test]) (by simp [start_test])
      (by simp [start_test])
  split
  · exact stepEffect_complete env _ _ false s _ (by simp [start_test])
      (by simp [start_test]) (by simp [start_test]) (by simp [start_test])
  · exact stepEffect_complete env "Example Programs" "" true s _
      (by simp [start_test]) (by simp [start_test]) (by simp [start_test])
      (by simp [start_test])

theorem stepEffect_documentation (env : Env) (s : VState) :
    StepEffect s (test_documentation env s).2 := by
  simp only [test_documentation]
  split
  · exact stepEffect_complete env _ _ false s _ (by simp [start_test])
      (by simp [start_test]) (by simp [start_test]) (by simp [start_test])
  · exact stepEffect_complete env "Documentation Tests" "" true s _
      (by simp [start_test]) (by simp [start_test]) (by simp [start_test])
      (by simp [start_test])

theorem stepEffect_executable (env : Env) (s : VState) :
    StepEffect s (test_executable_paths env s).2 := by
  simp only [test_executable_paths]
  split
  · exact stepEffect_complete env "Executable Path Reporting" "" true s _
      (by simp [start_test]) (by simp [start_test]) (by simp [start_test])
      (by simp [start_test])
  · exact stepEffect_complete env "Executable Path Reporting" "" true s _
      (by simp [start_test]) (by simp [start_test]) (by simp [start_test])
      (by simp [start_test])

theorem stepEffect_patterns (env : Env) (s : VState) :
    StepEffect s (validate_path_patterns env s).2 := by
  simp only [validate_path_patterns]
  exact stepEffect_complete env "Path Pattern Validation" "" true s _
    (by simp [start_test]) (by simp [start_test]) (by simp [start_test])
    (by simp [start_test])

/-- Any property of the state preserved by every completed check is preserved
by the whole suite. -/
theorem suite_preserves (P : VState → Prop)
    (hP : ∀ a b : VState, StepEffect a b → P a → P b)
    (env : Env) (p g f : Bool) (it : Nat) (s : VState) (h : P s) :
    P (run_validation_suite env p g f it s).2 := by
  simp only [run_validation_suite]
  split
  · exact h
  · have h1 := hP _ _ (stepEffect_basic env s) h
    have h2 := hP _ _ (stepEffect_unit env _) h1
    have h3 := hP _ _ (stepEffect_integration env _) h2
    have h4 := hP _ _ (stepEffect_examples env _) h3
    have h5 := hP _ _ (stepEffect_documentation env _) h4
    have h6 := hP _ _ (stepEffect_patterns env _) h5
    refine hP _ _ (stepEffect_executable env _) ?_
    split
    · refine hP _ _ (stepEffect_performance env it _) ?_
      split
      · exact hP _ _ (stepEffect_gitbash env _) h6
      · exact h6
    · split
      · exact hP _ _ (stepEffect_gitbash env _) h6
      · exact h6

theorem counters_ok_of_step (a b : VState) (hs : StepEffect a b)
    (h : counters_ok a) : counters_ok b := by
  rcases hs with ⟨ht, hc | hc⟩ <;>
    · rcases hc with ⟨h1, h2, _⟩
      unfold counters_ok at *
      omega

theorem errors_ok_of_step (a b : VState) (hs : StepEffect a b)
    (h : errors_ok a) : errors_ok b := by
  rcases hs with ⟨ht, ⟨h1, h2, h3⟩ | ⟨h1, h2, e, h3⟩⟩ <;>
    · unfold errors_ok at *
      simp [h3]
      omega

@[simp]
theorem generate_report_results (env : Env) (fs : FS)
    (o : Option OutPath) (s : VState) :
    ((generate_report env fs o s).1).results = s.results := by
  cases o with
  | none => rfl
  | some p => by_cases hc : p.parent ∈ fs <;> simp [generate_report, hc]

@[simp]
theorem generate_report_started (env : Env) (fs : FS)
    (o : Option OutPath) (s : VState) :
    ((generate_report env fs o s).1).started = s.started := by
  cases o with
  | none => rfl
  | some p => by_cases hc : p.parent ∈ fs <;> simp [generate_report, hc]

theorem started_basic (env : Env) (s : VState) :
    (test_basic_compilation env s).2.started
      = s.started ++ ["Basic Compilation"] := by
  simp only [test_basic_compilation]
  split
  · simp [start_test]
  split
  · simp [start_test]
  split
  · simp [start_test]
  · simp [start_test]

theorem started_unit (env : Env) (s : VState) :
    (test_unit_tests env s).2.started = s.started ++ ["Unit Tests"] := by
  simp only [test_unit_tests]
  split <;> simp [start_test]

theorem started_integration (env : Env) (s : VState) :
    (test_integration_tests env s).2.started
      = s.started ++ ["Integration Tests"] := by
  simp [test_integration_tests, start_test]

theorem started_gitbash (env : Env) (s : VState) :
    (test_git_bash_specific env s).2.started
      = s.started ++ ["Git Bash Path Handling"] := by
  simp only [test_git_bash_specific]
  split <;> simp [start_test]

theorem started_performance (env : Env) (it : Nat) (s : VState) :
    (test_performance env it s).2.started
      = s.started ++ ["Performance Tests"] := by
  simp [test_performance, start_test]

theorem started_examples (env : Env) (s : VState) :
    (test_examples env s).2.started = s.started ++ ["Example Programs"] := by
  simp only [test_examples]
  split
  · simp [start_test]
  split <;> simp [start_test]

theorem started_documentation (env : Env) (s : VState) :
    (test_documentation env s).2.started
      = s.started ++ ["Documentation Tests"] := by
  simp only [test_documentation]
  split <;> simp [start_test]

theorem started_executable (env : Env) (s : VState) :
    (test_executable_paths env s).2.started
      = s.started ++ ["Executable Path Reporting"] := by
  simp only [test_executable_paths]
  split <;> simp [start_test]

theorem started_patterns (env : Env) (s : VState) :
    (validate_path_patterns env s).2.started
      = s.started ++ ["Path Pattern Validation"] := by
  simp [validate_path_patterns, start_test]

theorem total_basic (env : Env) (s : VState) :
    (test_basic_compilation env s).2.results.total_tests
      = s.results.total_tests + 1 := (stepEffect_basic env s).1

theorem total_unit (env : Env) (s : VState) :
    (test_unit_tests env s).2.results.total_tests
      = s.results.total_tests + 1 := (stepEffect_unit env s).1

theorem total_integration (env : Env) (s : VState) :
    (test_integration_tests env s).2.results.total_tests
      = s.results.total_tests + 1 := (stepEffect_integration env s).1

theorem total_gitbash (env : Env) (s : VState) :
    (test_git_bash_specific env s).2.results.total_tests
      = s.results.total_tests + 1 := (stepEffect_gitbash env s).1

theorem total_performance (env : Env) (it : Nat) (s : VState) :
    (test_performance env it s).2.results.total_tests
      = s.results.total_tests + 1 := (stepEffect_performance env it s).1

theorem total_examples (env : Env) (s : VState) :
    (test_examples env s).2.results.total_tests
      = s.results.total_tests + 1 := (stepEffect_examples env s).1

theorem total_documentation (env : Env) (s : VState) :
    (test_documentation env s).2.results.total_tests
      = s.results.total_tests + 1 := (stepEffect_documentation env s).1

theorem total_executable (env : Env) (s : VState) :
    (test_executable_paths env s).2.results.total_tests
      = s.results.total_tests + 1 := (stepEffect_executable env s).1

theorem total_patterns (env : Env) (s : VState) :
    (validate_path_patterns env s).2.results.total_tests
      = s.results.total_tests + 1 := (stepEffect_patterns env s).1

theorem complete_failed_count (env : Env) (name msg : String)
    (r : Bool × VState) (s : VState)
    (h : r.2.results.failed_tests = s.results.failed_tests) :
    (complete_test env name r.1 msg r.2).results.failed_tests
      = s.results.failed_tests + (if r.1 then 0 else 1) := by
  rcases r with ⟨b, t⟩
  cases b <;> simp [complete_test, h.symm]

theorem mem_mkdir (fs : FS) (d : String) : d ∈ mkdir_exist_ok fs d := by
  unfold mkdir_exist_ok
  split
  · assumption
  · simp

theorem main_results (env : Env) (fs : FS) (args : Args) :
    (main env fs args).2.1.results
      = (run_validation_suite env args.performance args.git_bash args.full
          args.iterations (init_state env)).2.results := by
  unfold main
  cases hox : args.output with
  | none =>
      simp only [hox]
      split
      all_goals
        next heq =>
          have h2 := congrArg (fun x => (Prod.fst x).results) heq
          simp only [generate_report_results] at h2
          simpa using h2.symm
  | some p =>
      simp only [hox]
      split
      all_goals
        next heq =>
          have h2 := congrArg (fun x => (Prod.fst x).results) heq
          simp only [generate_report_results] at h2
          simpa using h2.symm

theorem suite_started (env : Env) (p g f : Bool) (it : Nat) (s : VState)
    (h : env.winpath_dir_exists = true) :
    (run_validation_suite env p g f it s).2.started
      = s.started
        ++ ["Basic Compilation", "Unit Tests", "Integration Tests",
            "Example Programs", "Documentation Tests", "Path Pattern Validation"]
        ++ (if g || f then ["Git Bash Path Handling"] else [])
        ++ (if p || f then ["Performance Tests"] else [])
        ++ ["Executable Path Reporting"] := by
  by_cases hg : (g || f) = true <;> by_cases hp : (p || f) = true <;>
    simp [run_validation_suite, h, hg, hp, started_basic, started_unit,
      started_integration, started_examples, started_documentation,
      started_patterns, started_gitbash, started_performance,
      started_executable]

theorem suite_total (env : Env) (p g f : Bool) (it : Nat) (s : VState)
    (h : env.winpath_dir_exists = true) :
    (run_validation_suite env p g f it s).2.results.total_tests
      = s.results.total_tests + 7
        + (if g || f then 1 else 0) + (if p || f then 1 else 0) := by
  by_cases hg : (g || f) = true <;> by_cases hp : (p || f) = true <;>
    simp [run_validation_suite, h, hg, hp, total_basic, total_unit,
      total_integration, total_examples, total_documentation, total_patterns,
      total_gitbash, total_performance, total_executable]

/- ------------------------------------------------------------------ -/
/- Claim theorems                                                      -/
/- ------------------------------------------------------------------ -/

/-- C8: `run_cargo_command` never raises to its caller: a timeout yields
failure with the distinguished message "Command timed out"; any other
invocation error yields failure with the exception text; a completed process
yields `(returncode == 0, stdout ++ stderr)`, i.e. failure with the combined
output on a non-zero exit and success on a zero exit. -/
theorem c8_run_cargo_never_raises (env : Env) (args : List String) (cwd : Cwd)
    (s : VState) :
    (env.run s.callIdx args cwd = CmdResult.timedOut →
      (run_cargo_command env args cwd s).1 = (false, "Command timed out")) ∧
    (∀ e, env.run s.callIdx args cwd = CmdResult.raised e →
      (run_cargo_command env args cwd s).1 = (false, e)) ∧
    (∀ rc out err, env.run s.callIdx args cwd = CmdResult.completed rc out err →
      (run_cargo_command env args cwd s).1 = ((rc == 0 : Bool), out ++ err) ∧
      ((run_cargo_command env args cwd s).1.1 = true ↔ rc = 0)) := by
  refine ⟨fun h => ?_, fun e h => ?_, fun rc out err h => ?_⟩ <;>
    simp [run_cargo_command, h]

/-- Witness for C8: in the timeout environment, the first invocation is
classified as a failure with the distinguished message. -/
theorem c8_witness :
    envTimeout.run (init_state envTimeout).callIdx ["build"] Cwd.winpath
        = CmdResult.timedOut ∧
    (run_cargo_command envTimeout ["build"] Cwd.winpath
        (init_state envTimeout)).1 = (false, "Command timed out") :=
  ⟨rfl, (c8_run_cargo_never_raises envTimeout ["build"] Cwd.winpath
    (init_state envTimeout)).1 rfl⟩

/-- C10: the Executable Path Reporting check records success and returns true
on every run — for every environment (including one where the test directory
exists and the inner invocation fails) it increments `passed_tests`, leaves
`failed_tests` and the error list untouched, and returns `true`. -/
theorem c10_executable_paths_always_pass (env : Env) (s : VState) :
    (test_executable_paths env s).1 = true ∧
    (test_executable_paths env s).2.results.passed_tests
      = s.results.passed_tests + 1 ∧
    (test_executable_paths env s).2.results.failed_tests
      = s.results.failed_tests ∧
    (test_executable_paths env s).2.results.errors = s.results.errors := by
  refine ⟨rfl, ?_, ?_, ?_⟩ <;>
    · simp only [test_executable_paths]
      split <;> simp [complete_test, start_test]

/-- C9: skippable steps always contribute a passing result: when the examples
directory is absent the Example Programs check passes without invoking cargo,
and when the winutils tests directory is absent the Executable Path Reporting
check passes without invoking cargo (unchanged `callIdx`). -/
theorem c9_skippable_steps_pass (env : Env) (s : VState) :
    (env.examples_dir_exists = false →
      (test_examples env s).1 = true ∧
      (test_examples env s).2.results.passed_tests
        = s.results.passed_tests + 1 ∧
      (test_examples env s).2.results.failed_tests = s.results.failed_tests ∧
      (test_examples env s).2.results.errors = s.results.errors ∧
      (test_examples env s).2.callIdx = s.callIdx) ∧
    (env.winutils_tests_dir_exists = false →
      (test_executable_paths env s).1 = true ∧
      (test_executable_paths env s).2.results.passed_tests
        = s.results.passed_tests + 1 ∧
      (test_executable_paths env s).2.results.failed_tests
        = s.results.failed_tests ∧
      (test_executable_paths env s).2.results.errors = s.results.errors ∧
      (test_executable_paths env s).2.callIdx = s.callIdx) := by
  constructor <;> intro h
  · simp [test_examples, h, complete_test, start_test]
  · simp [test_executable_paths, h, complete_test, start_test]

/-- Witness for C9: with both optional directories absent, both checks pass. -/
theorem c9_witness :
    envNoOptionalDirs.examples_dir_exists = false ∧
    (test_examples envNoOptionalDirs (init_state envNoOptionalDirs)).1 = true ∧
    envNoOptionalDirs.winutils_tests_dir_exists = false ∧
    (test_executable_paths envNoOptionalDirs
      (init_state envNoOptionalDirs)).1 = true :=
  ⟨rfl,
   ((c9_skippable_steps_pass envNoOptionalDirs
      (init_state envNoOptionalDirs)).1 rfl).1,
   rfl,
   ((c9_skippable_steps_pass envNoOptionalDirs
      (init_state envNoOptionalDirs)).2 rfl).1⟩

/-- Counterexample for C2: in `envUmbrellaOk` the umbrella invocation
(`cargo test --test *`, call index 0) succeeds, yet the Integration Tests
check is recorded as failed (because the first sub-suite fails) — so the
recorded pass/fail is not driven by the umbrella invocation alone, and
sub-suite failures do change the recorded result. -/
theorem c2_counterexample :
    cmdOk (envUmbrellaOk.run (init_state envUmbrellaOk).callIdx
      ["test", "--test", "*"] Cwd.winpath) = true ∧
    (test_integration_tests envUmbrellaOk (init_state envUmbrellaOk)).1
      = false ∧
    (test_integration_tests envUmbrellaOk
      (init_state envUmbrellaOk)).2.results.failed_tests = 1 := by
  refine ⟨rfl, rfl, rfl⟩

/-- C2 (amended): the recorded pass/fail of the Integration Tests check
equals the conjunction of the four named sub-suite invocations' outcomes; the
umbrella invocation is run first but its outcome is ignored (the equality
holds for every environment, whatever the umbrella outcome), and the check's
failure counter reflects exactly that conjunction. -/
theorem c2_amended_subsuites_drive_result (env : Env) (s : VState) :
    ((test_integration_tests env s).1
      = (cmdOk (env.run (s.callIdx + 1) ["test", "--test", "basic_tests"]
            Cwd.winpath)
        && cmdOk (env.run (s.callIdx + 2) ["test", "--test", "wsl_path_tests"]
            Cwd.winpath)
        && cmdOk (env.run (s.callIdx + 3) ["test", "--test", "git_bash_tests"]
            Cwd.winpath)
        && cmdOk (env.run (s.callIdx + 4) ["test", "--test", "integration_tests"]
            Cwd.winpath))) ∧
    (test_integration_tests env s).2.results.failed_tests
      = s.results.failed_tests
        + (if (test_integration_tests env s).1 then 0 else 1) := by
  constructor
  · simp [test_integration_tests, integration_test_files, run_each,
      start_test, Bool.and_assoc]
  · simp only [test_integration_tests]
    refine complete_failed_count env "Integration Tests" "" _ s ?_
    simp [run_each_results, run_cargo_snd, start_test]

/-- Counterexample for C3: in an environment where every build succeeds, the
compilation step contributes exactly one counted check ("Basic Compilation"),
not three independent checks. -/
theorem c3_counterexample :
    (test_basic_compilation envAllOk
      (init_state envAllOk)).2.results.total_tests = 1 ∧
    ¬ (test_basic_compilation envAllOk
      (init_state envAllOk)).2.results.total_tests = 3 := by
  refine ⟨rfl, by decide⟩

/-- C3 (amended): the compilation step runs up to three build variants
(default, release, all-features) as sub-invocations of a single check, which
contributes exactly one counted check; the step fails overall if any variant
fails, and a failing variant short-circuits the later ones (visible in the
number of cargo invocations consumed). -/
theorem c3_amended_single_check (env : Env) (s : VState) :
    ((test_basic_compilation env s).1
      = (cmdOk (env.run s.callIdx ["build"] Cwd.winpath)
        && cmdOk (env.run (s.callIdx + 1) ["build", "--release"] Cwd.winpath)
        && cmdOk (env.run (s.callIdx + 2) ["build", "--all-features"]
            Cwd.winpath))) ∧
    (test_basic_compilation env s).2.results.total_tests
      = s.results.total_tests + 1 ∧
    (test_basic_compilation env s).2.callIdx
      = s.callIdx
        + (if cmdOk (env.run s.callIdx ["build"] Cwd.winpath) then
            (if cmdOk (env.run (s.callIdx + 1) ["build", "--release"]
                Cwd.winpath) then 3 else 2)
          else 1) := by
  have e2 : s.callIdx + 1 + 1 = s.callIdx + 2 := rfl
  have e3 : s.callIdx + 1 + 1 + 1 = s.callIdx + 3 := rfl
  refine ⟨?_, total_basic env s, ?_⟩ <;>
    · simp only [test_basic_compilation, run_cargo_ok, run_cargo_snd,
        start_test]
      by_cases h1 : cmdOk (env.run s.callIdx ["build"] Cwd.winpath) = true <;>
        by_cases h2 : cmdOk (env.run (s.callIdx + 1) ["build", "--release"]
          Cwd.winpath) = true <;>
        by_cases h3 : cmdOk (env.run (s.callIdx + 2)
          ["build", "--all-features"] Cwd.winpath) = true <;>
        simp [h1, h2, h3, e2, e3, complete_test, start_test]

/-- Counterexample for C5: when the destination's parent directory does not
exist, `generate_report` does not create it — the write raises
(`FileNotFoundError`) instead of succeeding. -/
theorem c5_counterexample :
    ¬ (badOut.parent ∈ ([] : FS)) ∧
    (generate_report envAllOk ([] : FS) (some badOut)
      (init_state envAllOk)).2 = Except.error "FileNotFoundError" := by
  refine ⟨by simp, rfl⟩

/-- C5 (amended): when `generate_report` is given a destination path it
serializes the summary, the errors and the performance data to that path, but only if
the destination's parent directory already exists; it creates no parent
directories (the only directory creation is `__init__`'s
`mkdir(exist_ok=True)` on the default results directory), and a missing
parent makes the write raise. -/
theorem c5_amended_no_parent_creation (env : Env) (fs : FS) (p : OutPath)
    (s : VState) :
    (p.parent ∈ fs →
      (generate_report env fs (some p) s).2
        = Except.ok ((s.results.failed_tests == 0 : Bool), some
            { summary :=
                { total_tests := s.results.total_tests
                  passed_tests := s.results.passed_tests
                  failed_tests := s.results.failed_tests
                  duration := env.time s.tick - s.results.start_time
                  start_time := s.results.start_time
                  end_time := env.time s.tick }
              errors := s.results.errors
              performance := s.results.performance })) ∧
    (¬ p.parent ∈ fs →
      (generate_report env fs (some p) s).2
        = Except.error "FileNotFoundError") ∧
    test_results_dir ∈ init_fs fs := by
  refine ⟨fun hp => ?_, fun hp => ?_, mem_mkdir fs test_results_dir⟩ <;>
    simp [generate_report, hp]

/-- Witness for C5 (amended): with the parent directory present the report is
written and carries the in-memory summary. -/
theorem c5_witness :
    (("d" : String) ∈ (["d"] : FS)) ∧
    (generate_report envAllOk ["d"]
        (some { parent := "d", fname := "f.json" })
        (init_state envAllOk)).2
      = Except.ok (true, some
          { summary :=
              { total_tests := 0, passed_tests := 0, failed_tests := 0,
                duration := 1, start_time := 0, end_time := 1 }
            errors := []
            performance := [] }) := by
  have h := (c5_amended_no_parent_creation envAllOk ["d"]
    { parent := "d", fname := "f.json" } (init_state envAllOk)).1 (by simp)
  exact ⟨by simp, h⟩

/-- C4: when the winpath directory is missing, the suite returns false
without running any check (the state is untouched, so zero checks are
counted), yet `main` still writes a report — whose summary shows zero total
checks — to the default destination, and exits with code 1. -/
theorem c4_missing_root_fails_fast (env : Env) (fs : FS) (args : Args)
    (h : env.winpath_dir_exists = false) (ho : args.output = none) :
    run_validation_suite env args.performance args.git_bash args.full
        args.iterations (init_state env) = (false, init_state env) ∧
    (init_state env).results.total_tests = 0 ∧
    (∃ rep : Report, (main env fs args).2.2 = some rep ∧
      rep.summary.total_tests = 0) ∧
    (main env fs args).1 = 1 := by
  have hsuite : run_validation_suite env args.performance args.git_bash
      args.full args.iterations (init_state env) = (false, init_state env) := by
    simp [run_validation_suite, h]
  have hmem : test_results_dir ∈ init_fs fs := mem_mkdir fs test_results_dir
  have hmain : main env fs args
      = (1, { init_state env with tick := 2 }, some
          { summary :=
              { total_tests := 0, passed_tests := 0, failed_tests := 0,
                duration := env.time 1 - env.time 0,
                start_time := env.time 0, end_time := env.time 1 }
            errors := []
            performance := [] }) := by
    simp only [main, ho, hsuite]
    simp [generate_report, hmem, init_state]
  refine ⟨hsuite, rfl, ⟨_, by rw [hmain], rfl⟩, by rw [hmain]⟩

/-- Witness for C4: a concrete missing-root run exits with code 1. -/
theorem c4_witness :
    envNoWinpath.winpath_dir_exists = false ∧
    (main envNoWinpath [] argsDefault).1 = 1 :=
  ⟨rfl, (c4_missing_root_fails_fast envNoWinpath [] argsDefault rfl
    rfl).2.2.2⟩

/-- C6: for every combination of flags (winpath directory present), the
Git-Bash check is started — appearing in the ordered log of started checks —
iff the git-bash flag or the full-suite flag is set, the performance check
iff the performance flag or the full-suite flag is set, and each counted
check contributes exactly one to `total_tests`: the total is 7 plus one per
enabled optional check. -/
theorem c6_flag_gated_checks (env : Env) (p g f : Bool) (it : Nat)
    (s : VState) (h : env.winpath_dir_exists = true) :
    (run_validation_suite env p g f it s).2.started
      = s.started
        ++ ["Basic Compilation", "Unit Tests", "Integration Tests",
            "Example Programs", "Documentation Tests", "Path Pattern Validation"]
        ++ (if g || f then ["Git Bash Path Handling"] else [])
        ++ (if p || f then ["Performance Tests"] else [])
        ++ ["Executable Path Reporting"] ∧
    (run_validation_suite env p g f it s).2.results.total_tests
      = s.results.total_tests + 7
        + (if g || f then 1 else 0) + (if p || f then 1 else 0) :=
  ⟨suite_started env p g f it s h, suite_total env p g f it s h⟩

/-- Witness for C6: with no optional flags, only the seven core checks are
started and counted. -/
theorem c6_witness :
    envAllOk.winpath_dir_exists = true ∧
    (run_validation_suite envAllOk false false false 1000
        (init_state envAllOk)).2.started
      = (init_state envAllOk).started
        ++ ["Basic Compilation", "Unit Tests", "Integration Tests",
            "Example Programs", "Documentation Tests", "Path Pattern Validation"]
        ++ (if false || false then ["Git Bash Path Handling"] else [])
        ++ (if false || false then ["Performance Tests"] else [])
        ++ ["Executable Path Reporting"] ∧
    (run_validation_suite envAllOk false false false 1000
        (init_state envAllOk)).2.results.total_tests
      = (init_state envAllOk).results.total_tests + 7
        + (if false || false then 1 else 0)
        + (if false || false then 1 else 0) :=
  ⟨rfl,
   (c6_flag_gated_checks envAllOk false false false 1000
      (init_state envAllOk) rfl).1,
   (c6_flag_gated_checks envAllOk false false false 1000
      (init_state envAllOk) rfl).2⟩

/-- C1: `total_tests = passed_tests + failed_tests` holds after each check
completes — every check preserves the equality, so does the whole suite and
`generate_report`, and the final state of any `main` run (in particular the
state after the report is rendered) satisfies it. -/
theorem c1_counter_equality :
    (∀ env s, counters_ok s → counters_ok (test_basic_compilation env s).2) ∧
    (∀ env s, counters_ok s → counters_ok (test_unit_tests env s).2) ∧
    (∀ env s, counters_ok s → counters_ok (test_integration_tests env s).2) ∧
    (∀ env s, counters_ok s → counters_ok (test_git_bash_specific env s).2) ∧
    (∀ env it s, counters_ok s → counters_ok (test_performance env it s).2) ∧
    (∀ env s, counters_ok s → counters_ok (test_examples env s).2) ∧
    (∀ env s, counters_ok s → counters_ok (test_documentation env s).2) ∧
    (∀ env s, counters_ok s → counters_ok (test_executable_paths env s).2) ∧
    (∀ env s, counters_ok s → counters_ok (validate_path_patterns env s).2) ∧
    (∀ env p g f it s, counters_ok s →
      counters_ok (run_validation_suite env p g f it s).2) ∧
    (∀ env fs o s, counters_ok s → counters_ok (generate_report env fs o s).1) ∧
    (∀ env fs args, counters_ok (main env fs args).2.1) := by
  refine ⟨fun env s h => counters_ok_of_step _ _ (stepEffect_basic env s) h,
    fun env s h => counters_ok_of_step _ _ (stepEffect_unit env s) h,
    fun env s h => counters_ok_of_step _ _ (stepEffect_integration env s) h,
    fun env s h => counters_ok_of_step _ _ (stepEffect_gitbash env s) h,
    fun env it s h => counters_ok_of_step _ _ (stepEffect_performance env it s) h,
    fun env s h => counters_ok_of_step _ _ (stepEffect_examples env s) h,
    fun env s h => counters_ok_of_step _ _ (stepEffect_documentation env s) h,
    fun env s h => counters_ok_of_step _ _ (stepEffect_executable env s) h,
    fun env s h => counters_ok_of_step _ _ (stepEffect_patterns env s) h,
    fun env p g f it s h =>
      suite_preserves counters_ok counters_ok_of_step env p g f it s h,
    fun env fs o s h => ?_, fun env fs args => ?_⟩
  · unfold counters_ok at *
    rw [generate_report_results]
    exact h
  · have hs : counters_ok (run_validation_suite env args.performance
        args.git_bash args.full args.iterations (init_state env)).2 :=
      suite_preserves counters_ok counters_ok_of_step env args.performance
        args.git_bash args.full args.iterations (init_state env) rfl
    unfold counters_ok at *
    rw [main_results]
    exact hs

/-- Witness for C1: the equality holds after a concrete check on the initial
state and after a concrete full suite run. -/
theorem c1_witness :
    counters_ok (test_basic_compilation envAllOk (init_state envAllOk)).2 ∧
    counters_ok (run_validation_suite envAllOk true true true 1000
      (init_state envAllOk)).2 :=
  ⟨c1_counter_equality.1 envAllOk (init_state envAllOk) rfl,
   c1_counter_equality.2.2.2.2.2.2.2.2.2.1 envAllOk true true true 1000
     (init_state envAllOk) rfl⟩

/-- C7: the error list tracks failures exactly — a failed `complete_test`
appends exactly one (test, error, time) entry and increments
`failed_tests`, a passed one leaves the list untouched, so
`length errors = failed_tests` is preserved by every check, by the suite, by
`generate_report`, and holds in the final state of any `main` run. -/
theorem c7_error_list_tracks_failures :
    (∀ env name msg s,
      (complete_test env name false msg s).results.failed_tests
        = s.results.failed_tests + 1 ∧
      (complete_test env name false msg s).results.errors
        = s.results.errors
          ++ [{ test := name, error := msg, time := env.time s.tick }]) ∧
    (∀ env name msg s,
      (complete_test env name true msg s).results.errors
        = s.results.errors) ∧
    (∀ env s, errors_ok s → errors_ok (test_basic_compilation env s).2) ∧
    (∀ env s, errors_ok s → errors_ok (test_unit_tests env s).2) ∧
    (∀ env s, errors_ok s → errors_ok (test_integration_tests env s).2) ∧
    (∀ env s, errors_ok s → errors_ok (test_git_bash_specific env s).2) ∧
    (∀ env it s, errors_ok s → errors_ok (test_performance env it s).2) ∧
    (∀ env s, errors_ok s → errors_ok (test_examples env s).2) ∧
    (∀ env s, errors_ok s → errors_ok (test_documentation env s).2) ∧
    (∀ env s, errors_ok s → errors_ok (test_executable_paths env s).2) ∧
    (∀ env s, errors_ok s → errors_ok (validate_path_patterns env s).2) ∧
    (∀ env p g f it s, errors_ok s →
      errors_ok (run_validation_suite env p g f it s).2) ∧
    (∀ env fs o s, errors_ok s → errors_ok (generate_report env fs o s).1) ∧
    (∀ env fs args, errors_ok (main env fs args).2.1) := by
  refine ⟨fun env name msg s => ⟨rfl, rfl⟩,
    fun env name msg s => rfl,
    fun env s h => errors_ok_of_step _ _ (stepEffect_basic env s) h,
    fun env s h => errors_ok_of_step _ _ (stepEffect_unit env s) h,
    fun env s h => errors_ok_of_step _ _ (stepEffect_integration env s) h,
    fun env s h => errors_ok_of_step _ _ (stepEffect_gitbash env s) h,
    fun env it s h => errors_ok_of_step _ _ (stepEffect_performance env it s) h,
    fun env s h => errors_ok_of_step _ _ (stepEffect_examples env s) h,
    fun env s h => errors_ok_of_step _ _ (stepEffect_documentation env s) h,
    fun env s h => errors_ok_of_step _ _ (stepEffect_executable env s) h,
    fun env s h => errors_ok_of_step _ _ (stepEffect_patterns env s) h,
    fun env p g f it s h =>
      suite_preserves errors_ok errors_ok_of_step env p g f it s h,
    fun env fs o s h => ?_, fun env fs args => ?_⟩
  · unfold errors_ok at *
    rw [generate_report_results]
    exact h
  · have hs : errors_ok (run_validation_suite env args.performance
        args.git_bash args.full args.iterations (init_state env)).2 :=
      suite_preserves errors_ok errors_ok_of_step env args.performance
        args.git_bash args.full args.iterations (init_state env) rfl
    unfold errors_ok at *
    rw [main_results]
    exact hs

/-- Witness for C7: the invariant holds after a concrete full suite run, and
a concrete failed completion appends exactly its one error entry. -/
theorem c7_witness :
    errors_ok (run_validation_suite envUmbrellaOk false false false 1000
      (init_state envUmbrellaOk)).2 ∧
    (complete_test envAllOk "Unit Tests" false "boom"
        (init_state envAllOk)).results.errors
      = [{ test := "Unit Tests", error := "boom",
           time := envAllOk.time 1 }] :=
  ⟨c7_error_list_tracks_failures.2.2.2.2.2.2.2.2.2.2.2.1 envUmbrellaOk
     false false false 1000 (init_state envUmbrellaOk) rfl,
   (c7_error_list_tracks_failures.1 envAllOk "Unit Tests" "boom"
     (init_state envAllOk)).2⟩

end ValidatePaths
